import Mathlib

/-!
Shallow embedding of the voice-chat integration layer:
  src/lib/ai/models.ts                          (model provider)
  src/lib/ai/speech/azure/azure-speech.ts       (speech service adapter)
  src/lib/ai/speech/azure/use-voice-chat.azure.ts (voice chat session controller)

Vendor SDK calls (speech recognition / synthesis engines, chat streaming)
are modelled by their observable outcomes, passed in as explicit parameters;
the adapter and controller logic is translated line by line from the source.
-/

/-- A JavaScript `process.env` entry: absent (`none`) or a string.
`envFalsy` is JS truthiness negation `!v` on such an entry:
true when the variable is unset or the empty string. -/
def envFalsy (v : Option String) : Bool :=
  v.getD "" = ""

/-- JS `a || b` on an env-string: `b` when `a` is unset or empty. -/
def envOrDefault (v : Option String) (dflt : String) : String :=
  if envFalsy v then dflt else v.getD ""

/-! ## models.ts -/

/-- Environment variables read by `models.ts`. -/
structure ModelsEnv where
  azureOpenAIKey : Option String
  azureOpenAIEndpoint : Option String
  azureOpenAIDeployment : Option String
deriving DecidableEq, Repr

/-- A language-model client instance, identified by the deployment it was
constructed for (`azureOpenAI(deploymentName)` in the source). -/
inductive LanguageModel where
  | azureOpenAI (deployment : String)
deriving DecidableEq, Repr

/-- The error raised by `createAzureOpenAI` when credentials are missing. -/
inductive ConfigurationError where
  | credentialsRequired (message : String)
deriving DecidableEq, Repr

/-- Embeds `createAzureOpenAI` (models.ts:16-26): throws when
`AZURE_OPENAI_KEY` or `AZURE_OPENAI_ENDPOINT` is falsy, otherwise returns
a client factory keyed by deployment name. Thrown errors are `.error`. -/
def createAzureOpenAI (env : ModelsEnv) :
    Except ConfigurationError (String → LanguageModel) :=
  if envFalsy env.azureOpenAIKey ∨ envFalsy env.azureOpenAIEndpoint then
    .error (.credentialsRequired "Azure OpenAI credentials are required")
  else
    .ok (fun deployment => LanguageModel.azureOpenAI deployment)

/-- Embeds `process.env.AZURE_OPENAI_DEPLOYMENT || "o3-mini"` (models.ts:32). -/
def deploymentName (env : ModelsEnv) : String :=
  envOrDefault env.azureOpenAIDeployment "o3-mini"

/-- Embeds `staticModels` (models.ts:30-34): one provider `"azure"` holding one
model, the configured deployment, as an ordered provider → model registry.
Built only when `createAzureOpenAI` succeeded (the module throws otherwise),
so the client factory is applied directly. -/
def staticModels (env : ModelsEnv) :
    List (String × List (String × LanguageModel)) :=
  [("azure", [(deploymentName env, LanguageModel.azureOpenAI (deploymentName env))])]

/-- Embeds `allModels` (models.ts:38). -/
def allModels (env : ModelsEnv) :
    List (String × List (String × LanguageModel)) :=
  staticModels env

/-- Embeds `allModels[provider]` — JS object property access as ordered lookup. -/
def lookupProvider (ms : List (String × List (String × LanguageModel)))
    (provider : String) : Option (List (String × LanguageModel)) :=
  (ms.find? (fun entry => entry.1 = provider)).map Prod.snd

/-- Embeds `models[name]`, lookup in the model table of one provider. -/
def lookupModelName (models : List (String × LanguageModel)) (name : String) :
    Option LanguageModel :=
  (models.find? (fun entry => entry.1 = name)).map Prod.snd

/-- Embeds `fallbackModel = allModels[firstProvider][firstModel]` (models.ts:46-49):
the first model of the first registered provider in registration order;
`none` models JS `undefined` (registry empty). -/
def fallbackModel (env : ModelsEnv) : Option LanguageModel :=
  (allModels env).head?.bind (fun entry => entry.2.head?.map Prod.snd)

/-- Embeds the `ChatModel` selector: a (provider, model) pair. -/
structure ChatModel where
  provider : String
  model : String
deriving DecidableEq, Repr

/-- Embeds `allModels[model.provider]?.[model.model]`: optional-chained lookup of a
selector in the registry. -/
def lookupSelector (env : ModelsEnv) (sel : ChatModel) : Option LanguageModel :=
  (lookupProvider (allModels env) sel.provider).bind
    (fun models => lookupModelName models sel.model)

/-- Embeds `customModelProvider.getModel` (models.ts:59-62): no selector or a
selector whose lookup misses returns the fallback; a hit returns the
registered client. -/
def getModel (env : ModelsEnv) (sel : Option ChatModel) : Option LanguageModel :=
  match sel with
  | none => fallbackModel env
  | some m =>
    match lookupSelector env m with
    | some client => some client
    | none => fallbackModel env

/-! ## azure-speech.ts : AzureSpeechService -/

/-- Adapter state (azure-speech.ts:10-14 plus resource bookkeeping):
`recognizer` / `synthesizer` are the instance fields; `activeContinuous`
records the ids of continuous-recognition sessions that have been started
and not yet stopped or closed, and `nextId` supplies fresh ids for
recognizer instances created by `new SpeechSDK.SpeechRecognizer(...)`. -/
structure AzureSpeechService where
  subscriptionKey : String
  region : String
  language : String
  voiceName : String
  recognizer : Option Nat
  synthesizer : Option Nat
  nextId : Nat
  activeContinuous : List Nat
deriving DecidableEq, Repr

/-- The constructor (azure-speech.ts:16-28): stores config, defaults
language to `"en-US"` and voice to `"en-US-AriaNeural"`; no recognizer or
synthesizer exists yet. -/
def AzureSpeechService.create (key region : String)
    (language voiceName : Option String) : AzureSpeechService :=
  { subscriptionKey := key
    region := region
    language := language.getD "en-US"
    voiceName := voiceName.getD "en-US-AriaNeural"
    recognizer := none
    synthesizer := none
    nextId := 0
    activeContinuous := [] }

/-- Embeds `stopContinuousRecognition` (azure-speech.ts:69-87): when a recognizer
exists, both the success and the error callback close it and null the
handle, then resolve — the call never rejects. -/
def stopContinuousRecognition (svc : AzureSpeechService) : AzureSpeechService :=
  match svc.recognizer with
  | none => svc
  | some r =>
    { svc with
        recognizer := none
        activeContinuous := svc.activeContinuous.erase r }

/-- Embeds `startContinuousRecognition` (azure-speech.ts:31-67): if a recognizer is
already running it is stopped (and released) first; then a fresh recognizer
is created, handlers installed, and continuous recognition started. -/
def startContinuousRecognition (svc : AzureSpeechService) : AzureSpeechService :=
  let svc := if svc.recognizer.isSome then stopContinuousRecognition svc else svc
  { svc with
      recognizer := some svc.nextId
      activeContinuous := svc.activeContinuous ++ [svc.nextId]
      nextId := svc.nextId + 1 }

/-- Embeds `dispose` (azure-speech.ts:141-150): closes and nulls the recognizer and
the synthesizer when held. -/
def dispose (svc : AzureSpeechService) : AzureSpeechService :=
  let svc :=
    match svc.recognizer with
    | none => svc
    | some r =>
      { svc with
          recognizer := none
          activeContinuous := svc.activeContinuous.erase r }
  { svc with synthesizer := none }

/-- Outcome of one-shot recognition in the underlying engine
(success callback with `RecognizedSpeech`, success callback with another
reason, or error callback). -/
inductive RecognizeOutcome where
  | recognizedSpeech (text : String)
  | otherReason (errorDetails : String)
  | engineError (err : String)
deriving DecidableEq, Repr

/-- Result of `recognizeOnce`: the settled promise plus resource-usage
facts about the recognizer created for the attempt. -/
structure RecognizeOnceResult where
  result : Except String String
  recognizerCreated : Bool
  recognizerClosed : Bool
deriving Repr

/-- Embeds `recognizeOnce` (azure-speech.ts:120-139): creates a disposable
recognizer; on every engine outcome `recognizer.close()` runs before the
promise settles; resolves with the text on `RecognizedSpeech`, rejects with
a recognition error message otherwise. It does not touch the own
`recognizer` field. -/
def recognizeOnce (outcome : RecognizeOutcome) : RecognizeOnceResult :=
  match outcome with
  | .recognizedSpeech text =>
    { result := .ok text, recognizerCreated := true, recognizerClosed := true }
  | .otherReason details =>
    { result := .error ("Recognition failed: " ++ details)
      recognizerCreated := true, recognizerClosed := true }
  | .engineError err =>
    { result := .error ("Recognition error: " ++ err)
      recognizerCreated := true, recognizerClosed := true }

/-- Outcome of the engine call `speakTextAsync`. -/
inductive SynthesisOutcome where
  | completed
  | otherReason (errorDetails : String)
  | engineError (err : String)
deriving DecidableEq, Repr

/-- Embeds `synthesizeSpeech` (azure-speech.ts:90-117): lazily creates the
synthesizer on first use; resolves on `SynthesizingAudioCompleted`, rejects
with a synthesis error message otherwise. -/
def synthesizeSpeech (svc : AzureSpeechService) (outcome : SynthesisOutcome) :
    AzureSpeechService × Except String Unit :=
  let svc :=
    if svc.synthesizer.isNone then
      { svc with synthesizer := some svc.nextId, nextId := svc.nextId + 1 }
    else svc
  (svc,
    match outcome with
    | .completed => .ok ()
    | .otherReason details => .error ("Speech synthesis failed: " ++ details)
    | .engineError err => .error ("Speech synthesis error: " ++ err))

/-- Environment variables read by `createAzureSpeechService`. -/
structure SpeechEnv where
  azureSpeechKey : Option String
  azureSpeechRegion : Option String
deriving DecidableEq, Repr

/-- Embeds `createAzureSpeechService` (azure-speech.ts:154-169): returns `null`
when the key or region is falsy, otherwise a fresh adapter with explicit
language and voice. -/
def createAzureSpeechService (env : SpeechEnv) : Option AzureSpeechService :=
  if envFalsy env.azureSpeechKey ∨ envFalsy env.azureSpeechRegion then
    none
  else
    some (AzureSpeechService.create (env.azureSpeechKey.getD "")
      (env.azureSpeechRegion.getD "") (some "en-US") (some "en-US-AriaNeural"))

/-! ## use-voice-chat.azure.ts : voice chat session controller -/

/-- JS `String.prototype.trim` — strips whitespace from both ends — modelled
on the character list so it is kernel-computable. -/
def jsTrim (s : String) : String :=
  String.mk (((s.data.dropWhile Char.isWhitespace).reverse.dropWhile
    Char.isWhitespace).reverse)

/-- A chat message as held by the message list of the controller. -/
structure ChatMessage where
  role : String
  content : String
deriving DecidableEq, Repr

/-- Controller state: the React state flags, the refs, and the chat state,
plus two observation logs for the external effects the claims count:
`chatRequests` counts `append` calls (each one chat-completion request) and
`synthesisCalls` records the texts passed to `synthesizeSpeech`. -/
structure VoiceChatState where
  isActive : Bool
  isListening : Bool
  isUserSpeaking : Bool
  isAssistantSpeaking : Bool
  isLoading : Bool
  error : Option String
  speechService : Option AzureSpeechService
  currentAudio : Option Nat
  messages : List ChatMessage
  chatRequests : Nat
  synthesisCalls : List String
deriving DecidableEq, Repr

/-- The initial hook state (use-voice-chat.azure.ts:16-24, 32-36). -/
def initialState : VoiceChatState :=
  { isActive := false
    isListening := false
    isUserSpeaking := false
    isAssistantSpeaking := false
    isLoading := false
    error := none
    speechService := none
    currentAudio := none
    messages := []
    chatRequests := 0
    synthesisCalls := [] }

/-- Embeds the awaited `append` call with a user-role message (use-voice-chat.azure.ts:143-146):
appends one user message to the chat and issues one chat-completion request. -/
def appendUserMessage (s : VoiceChatState) (content : String) : VoiceChatState :=
  { s with
      messages := s.messages ++ [{ role := "user", content := content }]
      chatRequests := s.chatRequests + 1 }

/-- The state during the awaited `append` inside the `onRecognized` callback
(use-voice-chat.azure.ts:138-146), reached only for non-blank text:
`isUserSpeaking` cleared, `isLoading` set, the trimmed text appended. -/
def onRecognizedPending (text : String) (s : VoiceChatState) : VoiceChatState :=
  appendUserMessage
    { s with isUserSpeaking := false, isLoading := true }
    (jsTrim text)

/-- The `onRecognized` final-transcript callback
(use-voice-chat.azure.ts:137-150): guarded by JS-truthiness of `text.trim()`,
so blank text does nothing; otherwise clears `isUserSpeaking`, sets
`isLoading`, awaits the append, then clears `isLoading`. -/
def onRecognized (text : String) (s : VoiceChatState) : VoiceChatState :=
  if jsTrim text = "" then s
  else { onRecognizedPending text s with isLoading := false }

/-- The `onRecognizing` interim-transcript callback
(use-voice-chat.azure.ts:152-156): sets `isUserSpeaking` only for non-blank
text. -/
def onRecognizing (text : String) (s : VoiceChatState) : VoiceChatState :=
  if jsTrim text = "" then s
  else { s with isUserSpeaking := true }

/-- The `onError` recognition callback (use-voice-chat.azure.ts:158-163):
records the error and clears `isListening` and `isUserSpeaking`. -/
def onRecognitionError (err : String) (s : VoiceChatState) : VoiceChatState :=
  { s with
      error := some err
      isListening := false
      isUserSpeaking := false }

/-- Embeds `start` (use-voice-chat.azure.ts:73-98): clears the error, constructs
the speech adapter; a `null` adapter raises
the failure message, which the surrounding
`catch` swallows into the `error` field — the call itself returns normally
on every path. On success marks the session active and, when the message
list is empty, seeds the system message with the configured prompt. -/
def start (env : SpeechEnv) (systemPrompt : String) (s : VoiceChatState) :
    VoiceChatState :=
  let s := { s with error := none }
  match createAzureSpeechService env with
  | none =>
    { s with
        speechService := none
        error := some "Failed to initialize Azure Speech Services" }
  | some svc =>
    let s := { s with speechService := some svc, isActive := true }
    if s.messages.length = 0 then
      { s with messages := [{ role := "system", content := systemPrompt }] }
    else s

/-- Embeds `stop` (use-voice-chat.azure.ts:100-125): stops continuous recognition
and disposes the adapter when one exists (both never reject), nulls the
adapter and audio refs, pauses playback, resets every flag and clears the
error. Nothing in the `try` block throws, so the `catch` arm is dead. -/
def stop (s : VoiceChatState) : VoiceChatState :=
  { s with
      speechService := none
      currentAudio := none
      isActive := false
      isListening := false
      isUserSpeaking := false
      isAssistantSpeaking := false
      isLoading := false
      error := none }

/-- Embeds `startListening` (use-voice-chat.azure.ts:127-170): no-op when no
adapter exists or already listening; otherwise sets `isListening`, clears
`isUserSpeaking` and the error, and starts continuous recognition on the
adapter (installing the three callbacks above). -/
def startListening (s : VoiceChatState) : VoiceChatState :=
  match s.speechService with
  | none => s
  | some svc =>
    if s.isListening then s
    else
      { s with
          isListening := true
          isUserSpeaking := false
          error := none
          speechService := some (startContinuousRecognition svc) }

/-- Embeds `stopListening` (use-voice-chat.azure.ts:172-183): no-op when no
adapter exists or not listening; otherwise stops continuous recognition and
clears `isListening` and `isUserSpeaking`. -/
def stopListening (s : VoiceChatState) : VoiceChatState :=
  match s.speechService with
  | none => s
  | some svc =>
    if s.isListening then
      { s with
          speechService := some (stopContinuousRecognition svc)
          isListening := false
          isUserSpeaking := false }
    else s

/-- The state during the awaited `synthesizeSpeech` call inside `onFinish`
(use-voice-chat.azure.ts:50-52), reached only when an adapter exists and
the content is non-empty: `isAssistantSpeaking` set, the call recorded. -/
def onChatFinishPending (content : String) (s : VoiceChatState) : VoiceChatState :=
  { s with
      isAssistantSpeaking := true
      synthesisCalls := s.synthesisCalls ++ [content] }

/-- The `useChat` `onFinish` handler (use-voice-chat.azure.ts:47-60):
when an adapter exists and the content of the completed message is non-empty
(JS truthiness), sets `isAssistantSpeaking`, awaits
`synthesizeSpeech(message.content)`, stores a rejection in the error field
(`catch`), and clears `isAssistantSpeaking` in the `finally` — the handler
itself never re-throws. -/
def onChatFinish (message : ChatMessage) (outcome : SynthesisOutcome)
    (s : VoiceChatState) : VoiceChatState :=
  match s.speechService with
  | none => s
  | some svc =>
    if message.content = "" then s
    else
      let pending := onChatFinishPending message.content s
      let res := synthesizeSpeech svc outcome
      let afterCall := { pending with speechService := some res.1 }
      let afterTry :=
        match res.2 with
        | .ok _ => afterCall
        | .error e => { afterCall with error := some e }
      { afterTry with isAssistantSpeaking := false }

/-- A speech-engine event as delivered to the three controller
continuous-recognition callbacks. -/
inductive SpeechEvent where
  | recognized (text : String)
  | recognizing (text : String)
  | canceled (err : String)
deriving DecidableEq, Repr

/-- Dispatch one engine event to the matching controller callback. -/
def stepEvent (s : VoiceChatState) (e : SpeechEvent) : VoiceChatState :=
  match e with
  | .recognized t => onRecognized t s
  | .recognizing t => onRecognizing t s
  | .canceled err => onRecognitionError ("Recognition canceled: " ++ err) s

/-- Process a sequence of engine events in delivery order. -/
def runEvents (s : VoiceChatState) (es : List SpeechEvent) : VoiceChatState :=
  es.foldl stepEvent s

/-- The effect of one engine event on the `isUserSpeaking` flag alone,
read off the three callbacks. -/
def speakingStep (b : Bool) (e : SpeechEvent) : Bool :=
  match e with
  | .recognizing t => if jsTrim t = "" then b else true
  | .recognized t => if jsTrim t = "" then b else false
  | .canceled _ => false

/-- Events that move the `isUserSpeaking` flag at all: non-blank interim
and final transcripts, and every cancellation. -/
def isSignificant (e : SpeechEvent) : Bool :=
  match e with
  | .recognizing t => jsTrim t ≠ ""
  | .recognized t => jsTrim t ≠ ""
  | .canceled _ => true

/-- Events that open a user-speaking window: non-blank interim transcripts. -/
def isLiveInterim (e : SpeechEvent) : Bool :=
  match e with
  | .recognizing t => jsTrim t ≠ ""
  | _ => false

/-- Window characterization of the `isUserSpeaking` flag: its value after a
trace is decided by the last flag-moving event — true exactly when that
event is a non-blank interim (no such event leaves the initial value). -/
def speakingAfter (init : Bool) (es : List SpeechEvent) : Bool :=
  match (es.filter isSignificant).getLast? with
  | none => init
  | some e => isLiveInterim e

/-! ## Adapter operations and concrete fixtures -/

/-- The public operations of the speech service adapter. -/
inductive AdapterOp where
  | startCont
  | stopCont
  | recOnce (outcome : RecognizeOutcome)
  | synth (outcome : SynthesisOutcome)
  | disposeCall
deriving DecidableEq, Repr

/-- Apply one adapter operation to the adapter state. `recognizeOnce`
creates and closes a recognizer local to the call and leaves the instance
fields untouched (azure-speech.ts:120-139). -/
def applyOp (svc : AzureSpeechService) (op : AdapterOp) : AzureSpeechService :=
  match op with
  | .startCont => startContinuousRecognition svc
  | .stopCont => stopContinuousRecognition svc
  | .recOnce _ => svc
  | .synth outcome => (synthesizeSpeech svc outcome).1
  | .disposeCall => dispose svc

/-- The continuous-recognition sessions that are open are exactly the one
held in the `recognizer` field — in particular there is at most one. -/
def SingleSessionInv (svc : AzureSpeechService) : Prop :=
  svc.activeContinuous = svc.recognizer.toList

/-- A speech environment with both credentials present. -/
def envSpeechOk : SpeechEnv :=
  { azureSpeechKey := some "sk", azureSpeechRegion := some "westus" }

/-- A speech environment missing the subscription key. -/
def envSpeechMissing : SpeechEnv :=
  { azureSpeechKey := none, azureSpeechRegion := some "westus" }

/-- A models environment with both credentials present and no deployment
override. -/
def envAzure : ModelsEnv :=
  { azureOpenAIKey := some "k", azureOpenAIEndpoint := some "https://e"
    azureOpenAIDeployment := none }

/-- A models environment missing the API key. -/
def envMissingLLM : ModelsEnv :=
  { azureOpenAIKey := none, azureOpenAIEndpoint := some "https://e"
    azureOpenAIDeployment := none }

/-- The controller state right after `start` and `startListening` succeeded
against `envSpeechOk`: active, listening, no user speech yet. -/
def sessionStart : VoiceChatState :=
  startListening (start envSpeechOk "You are a helpful voice assistant." initialState)

/-- A fresh adapter instance, as built by the factory under `envSpeechOk`. -/
def svcFresh : AzureSpeechService :=
  AzureSpeechService.create "sk" "westus" (some "en-US") (some "en-US-AriaNeural")

/-- A controller state holding a fresh speech adapter. -/
def stateWithAdapter : VoiceChatState :=
  { initialState with speechService := some svcFresh }

/-- Modelled from the spec (for comparison with the source function `start`): the
spec says `start()` "fails with an InitializationError if the Speech Service
Adapter cannot be constructed" — the failure is thrown across the public
session contract instead of being caught. -/
def startSpec (env : SpeechEnv) (systemPrompt : String) (s : VoiceChatState) :
    Except String VoiceChatState :=
  match createAzureSpeechService env with
  | none => .error "Failed to initialize Azure Speech Services"
  | some _ => .ok (start env systemPrompt s)

/-! ## Theorems -/

/-- C3: `getModel` never fails — a registered (provider, model) pair returns
its registered client; an unregistered pair returns exactly what the omitted
selector returns, namely the fixed fallback, which is the first model of the
first registered provider in registration order (here the azure client for
the configured deployment). -/
theorem getModel_spec (env : ModelsEnv) (sel : ChatModel) :
    (∀ client, lookupSelector env sel = some client →
      getModel env (some sel) = some client) ∧
    (lookupSelector env sel = none →
      getModel env (some sel) = getModel env none) ∧
    getModel env none = some (LanguageModel.azureOpenAI (deploymentName env)) ∧
    (getModel env (some sel)).isSome = true ∧
    (getModel env none).isSome = true := by
  refine ⟨?_, ?_, rfl, ?_, rfl⟩
  · intro client h
    simp [getModel, h]
  · intro h
    simp [getModel, h]
  · cases h : lookupSelector env sel <;>
      simp [getModel, h, fallbackModel, allModels, staticModels]

/-- Witness for C3 at a concrete environment: the registered azure pair
returns its client; an unregistered pair returns the no-selector result. -/
theorem getModel_spec_witness :
    getModel envAzure (some { provider := "azure", model := "o3-mini" }) =
      some (LanguageModel.azureOpenAI "o3-mini") ∧
    getModel envAzure (some { provider := "openai", model := "gpt-4o" }) =
      getModel envAzure none :=
  ⟨(getModel_spec envAzure { provider := "azure", model := "o3-mini" }).1
      (LanguageModel.azureOpenAI "o3-mini") (by decide),
   (getModel_spec envAzure { provider := "openai", model := "gpt-4o" }).2.1
      (by decide)⟩

/-- C7: `stop` resets every flag to its inactive value, clears the error,
releases the adapter and the playback handle, leaves the rest of the state
alone, is idempotent, and is safe on a never-started session. -/
theorem stop_idempotent_reset (s : VoiceChatState) :
    stop (stop s) = stop s ∧
    (stop s).isActive = false ∧
    (stop s).isListening = false ∧
    (stop s).isUserSpeaking = false ∧
    (stop s).isAssistantSpeaking = false ∧
    (stop s).isLoading = false ∧
    (stop s).error = none ∧
    (stop s).speechService = none ∧
    (stop s).currentAudio = none ∧
    (stop s).messages = s.messages ∧
    stop initialState = initialState :=
  ⟨rfl, rfl, rfl, rfl, rfl, rfl, rfl, rfl, rfl, rfl, rfl⟩

/-- C9: `recognizeOnce` creates a recognizer for the attempt and closes it
on every engine outcome; it resolves with the recognized text exactly on a
`RecognizedSpeech` outcome and rejects otherwise. -/
theorem recognizeOnce_spec (outcome : RecognizeOutcome) :
    (recognizeOnce outcome).recognizerCreated = true ∧
    (recognizeOnce outcome).recognizerClosed = true ∧
    (∀ text, (recognizeOnce outcome).result = .ok text ↔
      outcome = .recognizedSpeech text) ∧
    (∀ text, outcome = .recognizedSpeech text →
      (recognizeOnce outcome).result = .ok text) := by
  cases outcome <;> simp [recognizeOnce]

/-- Witness for C9: a successful outcome resolves with its text; a failing
outcome still closes the recognizer. -/
theorem recognizeOnce_spec_witness :
    (recognizeOnce (RecognizeOutcome.recognizedSpeech "hello")).result =
      .ok "hello" ∧
    (recognizeOnce (RecognizeOutcome.engineError "mic")).recognizerClosed = true :=
  ⟨(recognizeOnce_spec (RecognizeOutcome.recognizedSpeech "hello")).2.2.2
      "hello" rfl,
   (recognizeOnce_spec (RecognizeOutcome.engineError "mic")).2.1⟩

/-- C10: a final or interim transcript whose text is empty or
whitespace-only leaves the controller state exactly as it was: no message
appended and no flag changed. -/
theorem blank_transcript_ignored (s : VoiceChatState) (text : String)
    (h : jsTrim text = "") :
    onRecognized text s = s ∧ onRecognizing text s = s :=
  ⟨by simp [onRecognized, h], by simp [onRecognizing, h]⟩

/-- Witness for C10 on a whitespace-only transcript during a session. -/
theorem blank_transcript_ignored_witness :
    onRecognized "   " sessionStart = sessionStart ∧
    onRecognizing "   " sessionStart = sessionStart :=
  blank_transcript_ignored sessionStart "   " (by decide)

/-- C8 counterexample: with the API key unset, model-provider construction
raises the credentials error (an exception at construction time); it does
not return a provider of any kind. -/
theorem createAzureOpenAI_raises_cex :
    createAzureOpenAI envMissingLLM =
      .error (.credentialsRequired "Azure OpenAI credentials are required") ∧
    (createAzureOpenAI envMissingLLM).toOption = none :=
  ⟨rfl, rfl⟩

/-- C8 (amended): missing LLM credentials make model-provider construction
throw the credentials error; with both credentials present it returns the
client factory. -/
theorem createAzureOpenAI_spec (env : ModelsEnv) :
    (envFalsy env.azureOpenAIKey = true ∨ envFalsy env.azureOpenAIEndpoint = true →
      createAzureOpenAI env =
        .error (.credentialsRequired "Azure OpenAI credentials are required")) ∧
    (envFalsy env.azureOpenAIKey = false → envFalsy env.azureOpenAIEndpoint = false →
      createAzureOpenAI env = .ok (fun d => LanguageModel.azureOpenAI d)) := by
  constructor
  · intro h
    rcases h with h | h <;> simp [createAzureOpenAI, h]
  · intro h1 h2
    simp [createAzureOpenAI, h1, h2]

/-- Witness for C8: construction throws at `envMissingLLM` and succeeds at
`envAzure`. -/
theorem createAzureOpenAI_spec_witness :
    createAzureOpenAI envMissingLLM =
      .error (.credentialsRequired "Azure OpenAI credentials are required") ∧
    createAzureOpenAI envAzure = .ok (fun d => LanguageModel.azureOpenAI d) :=
  ⟨(createAzureOpenAI_spec envMissingLLM).1 (Or.inl (by decide)),
   (createAzureOpenAI_spec envAzure).2 (by decide) (by decide)⟩

/-- The invariant pins the open continuous sessions to the single
`recognizer` slot, so at most one is ever open. -/
theorem singleSessionInv_length (svc : AzureSpeechService)
    (h : SingleSessionInv svc) : svc.activeContinuous.length ≤ 1 := by
  rw [h]
  cases svc.recognizer <;> simp

/-- Starting continuous recognition under the invariant releases any prior
session and leaves exactly the fresh one open. -/
theorem startContinuousRecognition_fresh (svc : AzureSpeechService)
    (h : SingleSessionInv svc) :
    (startContinuousRecognition svc).activeContinuous = [svc.nextId] ∧
    (startContinuousRecognition svc).recognizer = some svc.nextId ∧
    (startContinuousRecognition svc).nextId = svc.nextId + 1 := by
  cases hr : svc.recognizer with
  | none =>
    simp [SingleSessionInv, hr] at h
    simp [startContinuousRecognition, stopContinuousRecognition, hr, h]
  | some r =>
    simp [SingleSessionInv, hr] at h
    simp [startContinuousRecognition, stopContinuousRecognition, hr, h]

/-- C6: every adapter operation preserves the at-most-one-continuous-session
invariant; `startContinuousRecognition` stops and releases a running session
before opening the fresh one; a fresh adapter satisfies the invariant; and a
second `startListening` while already listening is a no-op. -/
theorem single_recognition_session (svc : AzureSpeechService) (op : AdapterOp)
    (h : SingleSessionInv svc) :
    SingleSessionInv (applyOp svc op) ∧
    (applyOp svc op).activeContinuous.length ≤ 1 ∧
    (startContinuousRecognition svc).activeContinuous = [svc.nextId] ∧
    SingleSessionInv svcFresh ∧
    (∀ s : VoiceChatState, s.isListening = true → startListening s = s) := by
  have hinv : SingleSessionInv (applyOp svc op) := by
    cases op with
    | startCont =>
      obtain ⟨h1, h2, h3⟩ := startContinuousRecognition_fresh svc h
      simp [applyOp, SingleSessionInv, h1, h2]
    | stopCont =>
      cases hr : svc.recognizer with
      | none => simpa [applyOp, stopContinuousRecognition, hr] using h
      | some r =>
        simp [SingleSessionInv, hr] at h
        simp [applyOp, stopContinuousRecognition, SingleSessionInv, hr, h]
    | recOnce o => simpa [applyOp] using h
    | synth o =>
      by_cases hs : svc.synthesizer.isNone <;>
        simpa [applyOp, synthesizeSpeech, hs, SingleSessionInv] using h
    | disposeCall =>
      cases hr : svc.recognizer with
      | none => simpa [applyOp, dispose, hr, SingleSessionInv] using h
      | some r =>
        simp [SingleSessionInv, hr] at h
        simp [applyOp, dispose, SingleSessionInv, hr, h]
  refine ⟨hinv, singleSessionInv_length _ hinv,
    (startContinuousRecognition_fresh svc h).1, rfl, ?_⟩
  intro s hs
  cases hsvc : s.speechService with
  | none => simp [startListening, hsvc]
  | some svc2 => simp [startListening, hsvc, hs]

/-- Witness for C6: the invariant holds after starting recognition on a
fresh adapter, and a second `startListening` on a listening state is a
no-op. -/
theorem single_recognition_session_witness :
    SingleSessionInv (applyOp svcFresh AdapterOp.startCont) ∧
    (applyOp svcFresh AdapterOp.startCont).activeContinuous.length ≤ 1 ∧
    startListening sessionStart = sessionStart :=
  ⟨(single_recognition_session svcFresh AdapterOp.startCont rfl).1,
   (single_recognition_session svcFresh AdapterOp.startCont rfl).2.1,
   (single_recognition_session svcFresh AdapterOp.startCont rfl).2.2.2.2
     sessionStart (by decide)⟩

/-- C1 counterexample: a whitespace-only final transcript appends no message
and changes nothing, and a padded final transcript is appended trimmed — so
it is not the case that every final callback appends the transcript
verbatim. -/
theorem onRecognized_cex :
    onRecognized " " sessionStart = sessionStart ∧
    (onRecognized " hi " sessionStart).messages =
      sessionStart.messages ++ [{ role := "user", content := "hi" }] ∧
    ({ role := "user", content := "hi" } : ChatMessage) ≠
      { role := "user", content := " hi " } := by
  refine ⟨by decide, by decide, by decide⟩

/-- C1 (amended): for a final transcript whose text is non-blank, the
controller clears `isUserSpeaking`, sets `isLoading` for the duration of the
append, appends exactly one user message whose content is the trimmed
transcript (one chat request), and clears `isLoading` only after the append
returns — the final state is the during-append state with just `isLoading`
cleared. -/
theorem onRecognized_spec (s : VoiceChatState) (text : String)
    (h : ¬ jsTrim text = "") :
    (onRecognized text s).messages =
      s.messages ++ [{ role := "user", content := jsTrim text }] ∧
    (onRecognized text s).chatRequests = s.chatRequests + 1 ∧
    (onRecognized text s).isUserSpeaking = false ∧
    (onRecognized text s).isLoading = false ∧
    (onRecognizedPending text s).isLoading = true ∧
    onRecognized text s = { onRecognizedPending text s with isLoading := false } := by
  unfold onRecognized
  rw [if_neg h]
  exact ⟨rfl, rfl, rfl, rfl, rfl, rfl⟩

/-- Witness for C1 (amended) at the example transcript from the spec. -/
theorem onRecognized_spec_witness :
    (onRecognized "turn on the lights" sessionStart).messages =
      sessionStart.messages ++
        [{ role := "user", content := jsTrim "turn on the lights" }] ∧
    (onRecognized "turn on the lights" sessionStart).chatRequests =
      sessionStart.chatRequests + 1 :=
  ⟨(onRecognized_spec sessionStart "turn on the lights" (by decide)).1,
   (onRecognized_spec sessionStart "turn on the lights" (by decide)).2.1⟩

/-- C4 counterexample: with the speech key unset the adapter cannot be
constructed; the spec-worded `startSpec` throws the initialization failure,
but the source function `start` returns normally with the failure stored in the
`error` field and the session left inactive — nothing crosses the public
contract as an exception. -/
theorem start_no_throw_cex :
    createAzureSpeechService envSpeechMissing = none ∧
    startSpec envSpeechMissing "p" initialState =
      .error "Failed to initialize Azure Speech Services" ∧
    start envSpeechMissing "p" initialState =
      { initialState with
          error := some "Failed to initialize Azure Speech Services" } ∧
    (start envSpeechMissing "p" initialState).isActive = false :=
  ⟨rfl, rfl, by decide, rfl⟩

/-- C4 (amended): when the adapter cannot be constructed, `start` records
the initialization failure in the `error` field and leaves the state
otherwise untouched (nothing is thrown); when it can, `start` marks the
session active, holds the adapter, clears the error, and seeds the system
message with the configured prompt exactly when no prior messages exist. -/
theorem start_spec_amended (env : SpeechEnv) (prompt : String) (s : VoiceChatState) :
    (createAzureSpeechService env = none →
      start env prompt s =
        { s with
            speechService := none
            error := some "Failed to initialize Azure Speech Services" }) ∧
    (∀ svc, createAzureSpeechService env = some svc →
      (start env prompt s).isActive = true ∧
      (start env prompt s).error = none ∧
      (start env prompt s).speechService = some svc ∧
      (s.messages = [] →
        (start env prompt s).messages = [{ role := "system", content := prompt }]) ∧
      (s.messages ≠ [] → (start env prompt s).messages = s.messages)) := by
  constructor
  · intro h
    simp [start, h]
  · intro svc h
    by_cases hm : s.messages = []
    · simp [start, h, hm]
    · simp [start, h, hm, List.length_eq_zero]

/-- Witness for C4 (amended): a successful start is active and seeds the
system prompt; a failed start stores the error. -/
theorem start_spec_amended_witness :
    (start envSpeechOk "You are a helpful voice assistant." initialState).isActive
      = true ∧
    (start envSpeechOk "You are a helpful voice assistant." initialState).messages
      = [{ role := "system", content := "You are a helpful voice assistant." }] ∧
    start envSpeechMissing "p" initialState =
      { initialState with
          speechService := none
          error := some "Failed to initialize Azure Speech Services" } :=
  ⟨((start_spec_amended envSpeechOk "You are a helpful voice assistant."
      initialState).2 svcFresh rfl).1,
   ((start_spec_amended envSpeechOk "You are a helpful voice assistant."
      initialState).2 svcFresh rfl).2.2.2.1 rfl,
   (start_spec_amended envSpeechMissing "p" initialState).1 rfl⟩

/-- C5 counterexample: a completed assistant message with non-empty content
triggers no synthesis call and no speaking flag when no speech adapter
exists — the source also guards on `speechServiceRef.current`. -/
theorem onChatFinish_cex :
    onChatFinish { role := "assistant", content := "Done." }
      SynthesisOutcome.completed initialState = initialState ∧
    (onChatFinish { role := "assistant", content := "Done." }
      SynthesisOutcome.completed initialState).synthesisCalls = [] ∧
    (onChatFinish { role := "assistant", content := "Done." }
      SynthesisOutcome.completed initialState).isAssistantSpeaking = false :=
  ⟨rfl, rfl, rfl⟩

/-- C5 (amended): when a speech adapter exists and the completed assistant
message has non-empty content, exactly one synthesis call is made with
exactly that content; `isAssistantSpeaking` is set while the call is pending
and cleared once it settles on success and on failure alike; a failure is
stored as the session error while a success leaves the error unchanged; the
handler is a total state function — nothing is re-thrown. -/
theorem onChatFinish_spec (svc : AzureSpeechService) (s : VoiceChatState)
    (message : ChatMessage) (outcome : SynthesisOutcome)
    (hsvc : s.speechService = some svc) (hc : message.content ≠ "") :
    (onChatFinish message outcome s).synthesisCalls =
      s.synthesisCalls ++ [message.content] ∧
    (onChatFinishPending message.content s).isAssistantSpeaking = true ∧
    (onChatFinish message outcome s).isAssistantSpeaking = false ∧
    ((synthesizeSpeech svc outcome).2 = .ok () →
      (onChatFinish message outcome s).error = s.error) ∧
    (∀ e, (synthesizeSpeech svc outcome).2 = .error e →
      (onChatFinish message outcome s).error = some e) ∧
    (onChatFinish message outcome s).messages = s.messages := by
  simp only [onChatFinish, hsvc, if_neg hc]
  cases hres : (synthesizeSpeech svc outcome).2 with
  | ok u =>
    cases u
    simp [hres, onChatFinishPending]
  | error e =>
    simp [hres, onChatFinishPending]

/-- Witness for C5 (amended) at the example content from the spec, on success and
on an engine failure. -/
theorem onChatFinish_spec_witness :
    (onChatFinish { role := "assistant", content := "Done." }
      SynthesisOutcome.completed stateWithAdapter).synthesisCalls =
        stateWithAdapter.synthesisCalls ++ ["Done."] ∧
    (onChatFinish { role := "assistant", content := "Done." }
      (SynthesisOutcome.engineError "net") stateWithAdapter).error =
        some "Speech synthesis error: net" :=
  ⟨(onChatFinish_spec svcFresh stateWithAdapter
      { role := "assistant", content := "Done." } SynthesisOutcome.completed
      rfl (by decide)).1,
   (onChatFinish_spec svcFresh stateWithAdapter
      { role := "assistant", content := "Done." }
      (SynthesisOutcome.engineError "net")
      rfl (by decide)).2.2.2.2.1 "Speech synthesis error: net" rfl⟩

/-- Each engine event moves `isUserSpeaking` exactly as `speakingStep`
says. -/
theorem stepEvent_isUserSpeaking (s : VoiceChatState) (e : SpeechEvent) :
    (stepEvent s e).isUserSpeaking = speakingStep s.isUserSpeaking e := by
  cases e with
  | recognized t =>
    by_cases h : jsTrim t = "" <;>
      simp [stepEvent, onRecognized, onRecognizedPending, appendUserMessage,
        speakingStep, h]
  | recognizing t =>
    by_cases h : jsTrim t = "" <;>
      simp [stepEvent, onRecognizing, speakingStep, h]
  | canceled err => simp [stepEvent, onRecognitionError, speakingStep]

/-- Flag `isUserSpeaking` after a trace is the fold of `speakingStep` over it. -/
theorem runEvents_isUserSpeaking (es : List SpeechEvent) (s : VoiceChatState) :
    (runEvents s es).isUserSpeaking = es.foldl speakingStep s.isUserSpeaking := by
  induction es generalizing s with
  | nil => rfl
  | cons e es ih =>
    show (runEvents (stepEvent s e) es).isUserSpeaking = _
    rw [ih, stepEvent_isUserSpeaking]
    rfl

/-- A flag-moving event sets the flag to whether it is a non-blank
interim. -/
theorem speakingStep_significant (b : Bool) (e : SpeechEvent)
    (h : isSignificant e = true) : speakingStep b e = isLiveInterim e := by
  cases e with
  | recognized t =>
    simp [isSignificant] at h
    simp [speakingStep, isLiveInterim, h]
  | recognizing t =>
    simp [isSignificant] at h
    simp [speakingStep, isLiveInterim, h]
  | canceled err => simp [speakingStep, isLiveInterim]

/-- A blank transcript event leaves the flag unchanged. -/
theorem speakingStep_insignificant (b : Bool) (e : SpeechEvent)
    (h : isSignificant e = false) : speakingStep b e = b := by
  cases e with
  | recognized t =>
    simp [isSignificant] at h
    simp [speakingStep, h]
  | recognizing t =>
    simp [isSignificant] at h
    simp [speakingStep, h]
  | canceled err => simp [isSignificant] at h

/-- The fold of `speakingStep` is decided by the last flag-moving event. -/
theorem foldl_speakingStep_eq (es : List SpeechEvent) (b : Bool) :
    es.foldl speakingStep b = speakingAfter b es := by
  induction es generalizing b with
  | nil => rfl
  | cons e es ih =>
    show es.foldl speakingStep (speakingStep b e) = _
    rw [ih]
    unfold speakingAfter
    rw [List.filter_cons]
    cases hs : isSignificant e with
    | true =>
      simp only [hs, if_true, List.getLast?_cons]
      cases hf : (es.filter isSignificant).getLast? with
      | none => simp [hf, speakingStep_significant b e hs]
      | some e2 => simp [hf]
    | false =>
      cases hf : (es.filter isSignificant).getLast? with
      | none => simp [hf, speakingStep_insignificant b e hs]
      | some e2 => simp [hf]

/-- C2 (amended): over any trace of interim/final/error events,
`isUserSpeaking` afterwards is decided by the last flag-moving event —
non-blank interims, non-blank finals, and errors — and is true exactly when
that event is a non-blank interim; blank interim and final events leave the
flag unchanged, so a user-speaking window closes only at the next non-blank
final or error event. -/
theorem isUserSpeaking_window (s : VoiceChatState) (es : List SpeechEvent) :
    (runEvents s es).isUserSpeaking = speakingAfter s.isUserSpeaking es := by
  rw [runEvents_isUserSpeaking, foldl_speakingStep_eq]

/-- C2 counterexample: a whitespace-only final transcript does not close the
user-speaking window — after a non-blank interim followed by a blank final,
`isUserSpeaking` is still true even though a final event has been
processed since the interim. -/
theorem isUserSpeaking_blank_final_cex :
    (runEvents sessionStart
      [SpeechEvent.recognizing "hi", SpeechEvent.recognized " "]).isUserSpeaking
      = true ∧
    ¬ ∀ (es : List SpeechEvent),
        (∃ t, es.getLast? = some (SpeechEvent.recognized t)) →
        (runEvents sessionStart es).isUserSpeaking = false := by
  refine ⟨by decide, ?_⟩
  intro hclaim
  have hv := hclaim [SpeechEvent.recognizing "hi", SpeechEvent.recognized " "]
    ⟨" ", by decide⟩
  exact absurd hv (by decide)
